import Mathlib

set_option linter.unusedVariables false

namespace StockSentiment

/-- Calendar date-time produced by parsing an article publish timestamp,
modelling the fields of a Python `datetime` value. -/
structure DateTime where
  year : Nat
  month : Nat
  day : Nat
  hour : Nat
  minute : Nat
  second : Nat
deriving DecidableEq, Repr

/-- One row of the sentiment DataFrame built by `analyze_sentiment`
(columns `date`, `headline`, `sentiment`). -/
structure SRow where
  date : DateTime
  headline : String
  sentiment : ℚ
deriving DecidableEq, Repr

/-- One daily OHLC price bar of the stock DataFrame returned by
`get_stock_data` (columns `Open`, `High`, `Low`, `Close`, indexed by date). -/
structure PriceBar where
  Date : Nat
  Open : ℚ
  High : ℚ
  Low : ℚ
  Close : ℚ
deriving DecidableEq, Repr

/-- `pandas.Series.mean`: arithmetic mean of the listed values. -/
def mean (xs : List ℚ) : ℚ := xs.sum / xs.length

/-- `stock_df['Close'].iloc[0]`: close of the first price bar. -/
def firstClose (stock_df : List PriceBar) : ℚ :=
  (stock_df.head?.map PriceBar.Close).getD 0

/-- `stock_df['Close'].iloc[-1]`: close of the last price bar. -/
def lastClose (stock_df : List PriceBar) : ℚ :=
  (stock_df.getLast?.map PriceBar.Close).getD 0

/-- `StockSentimentAnalyzer.get_trading_advice`: guard on empty inputs or
fewer than 2 price bars, then threshold the mean sentiment (the computed
`price_change` is never consulted by the branches, exactly as in the source). -/
def get_trading_advice (sentiment_df : List SRow) (stock_df : List PriceBar) :
    String × String :=
  if sentiment_df.isEmpty || stock_df.isEmpty || stock_df.length < 2 then
    ("NO ADVICE", "gray")
  else
    let avg_sentiment := mean (sentiment_df.map SRow.sentiment)
    let price_change := (lastClose stock_df / firstClose stock_df - 1) * 100
    if avg_sentiment > 5/100 then ("BUYING ADVISED", "green")
    else if avg_sentiment < 4/100 then ("SELLING ADVISED", "red")
    else ("HOLD POSITION", "orange")

/-- Gregorian leap-year rule used by Python `datetime` for day validation. -/
def leapYear (y : Nat) : Bool :=
  y % 4 == 0 && (y % 100 != 0 || y % 400 == 0)

/-- Number of days in a month, as validated by the Python `datetime`
constructor that `strptime` ends in. -/
def daysInMonth (y m : Nat) : Nat :=
  if m = 2 then (if leapYear y then 29 else 28)
  else if m = 4 ∨ m = 6 ∨ m = 9 ∨ m = 11 then 30
  else 31

/-- Numeric value of a run of decimal digit characters. -/
def digitsVal (cs : List Char) : Nat :=
  cs.foldl (fun a c => a * 10 + (c.toNat - 48)) 0

/-- Take the maximal leading run of digits: returns its value, its length and
the remaining characters; `none` when no digit leads. -/
def parseField (cs : List Char) : Option (Nat × Nat × List Char) :=
  let p := cs.span Char.isDigit
  if p.1.length = 0 then none else some (digitsVal p.1, p.1.length, p.2)

/-- `datetime.strptime(s, '%Y-%m-%dT%H:%M:%SZ')` as used on
`article['publishedAt']`: four digits of year, one or two digits for the
other fields, fixed separators, nothing after the final `Z`; field bounds as
enforced by the `strptime` regex together with the `datetime` constructor
(month 1-12, day at most the month length, hour below 24, minute and second
below 60). Returns `none` exactly when the Python call raises `ValueError`. -/
def parseTimestamp (s : String) : Option DateTime :=
  match parseField s.toList with
  | none => none
  | some (y, yLen, r1) =>
    if yLen ≠ 4 ∨ y = 0 then none else
    match r1 with
    | '-' :: r2 =>
      match parseField r2 with
      | none => none
      | some (m, mLen, r3) =>
        if mLen > 2 ∨ m = 0 ∨ m > 12 then none else
        match r3 with
        | '-' :: r4 =>
          match parseField r4 with
          | none => none
          | some (d, dLen, r5) =>
            if dLen > 2 ∨ d = 0 ∨ d > daysInMonth y m then none else
            match r5 with
            | 'T' :: r6 =>
              match parseField r6 with
              | none => none
              | some (hh, hLen, r7) =>
                if hLen > 2 ∨ hh > 23 then none else
                match r7 with
                | ':' :: r8 =>
                  match parseField r8 with
                  | none => none
                  | some (mi, miLen, r9) =>
                    if miLen > 2 ∨ mi > 59 then none else
                    match r9 with
                    | ':' :: r10 =>
                      match parseField r10 with
                      | none => none
                      | some (ss, sLen, r11) =>
                        if sLen > 2 ∨ ss > 59 then none else
                        match r11 with
                        | ['Z'] => some ⟨y, m, d, hh, mi, ss⟩
                        | _ => none
                    | _ => none
                | _ => none
            | _ => none
        | _ => none
    | _ => none

/-- One article of the news JSON response: the `publishedAt` and `title`
keys, each possibly absent (`none` models a missing key, whose access raises
`KeyError` in the source). -/
structure Article where
  publishedAt : Option String
  title : Option String
deriving DecidableEq, Repr

/-- The per-article body of the loop in `fetch_news_headlines`: read
`publishedAt`, parse it, read `title`, score it; any `KeyError`/`ValueError`
is caught and the article is skipped (`none`). The sentiment scorer
(`TextBlob(...).sentiment.polarity`) is an external collaborator passed in as
`score`. -/
def processArticle (score : String → ℚ) (a : Article) :
    Option (DateTime × String × ℚ) :=
  match a.publishedAt with
  | none => none
  | some ts =>
    match parseTimestamp ts with
    | none => none
    | some date =>
      match a.title with
      | none => none
      | some t => some (date, t, score t)

/-- The article loop of `fetch_news_headlines`: append the headline tuple of
every article that processes cleanly, skipping the rest. -/
def processArticles (score : String → ℚ) (articles : List Article) :
    List (DateTime × String × ℚ) :=
  articles.filterMap (processArticle score)

/-- The decoded JSON body of a successful news request: its `status` field
and its `articles` array. -/
structure NewsResponse where
  status : String
  articles : List Article
deriving DecidableEq, Repr

/-- Outcome of the news HTTP request: `raised` when `requests.get` or
`raise_for_status` throws (network error or non-2xx status), `success` when
a JSON body is obtained. -/
inductive NetOutcome where
  | raised : NetOutcome
  | success : NewsResponse → NetOutcome
deriving DecidableEq, Repr

/-- `StockSentimentAnalyzer.fetch_news_headlines`: empty result when the API
key is falsy (absent or empty), when the request raises, or when the JSON
status is not `ok`; otherwise the processed articles. The network outcome is
a parameter of the embedding. -/
def fetch_news_headlines (score : String → ℚ) (api_key : Option String)
    (net : NetOutcome) : List (DateTime × String × ℚ) :=
  if (api_key.getD "").isEmpty then []
  else
    match net with
    | NetOutcome.raised => []
    | NetOutcome.success resp =>
      if resp.status ≠ "ok" then []
      else processArticles score resp.articles

/-- `StockSentimentAnalyzer.analyze_sentiment`: an empty DataFrame for an
empty headline list, else one row appended per headline tuple in order. -/
def analyze_sentiment (headlines : List (DateTime × String × ℚ)) : List SRow :=
  if headlines.isEmpty then []
  else headlines.foldl (fun results h => results ++ [⟨h.1, h.2.1, h.2.2⟩]) []

/-- `sentiment_data['date'].dt.date`: the calendar date of a row's
date-time, encoded so that the numeric order is the calendar order. -/
def dateKey (d : DateTime) : Nat :=
  d.year * 10000 + d.month * 100 + d.day

/-- Insert into an ascending list, keeping it ascending. -/
def insertAsc (x : Nat) : List Nat → List Nat
  | [] => [x]
  | y :: ys => if x ≤ y then x :: y :: ys else y :: insertAsc x ys

/-- Sort ascending (pandas `groupby` emits its groups in ascending key
order). -/
def sortAsc (l : List Nat) : List Nat := l.foldr insertAsc []

/-- `sentiment_data.groupby(sentiment_data['date'].dt.date)['sentiment'].mean()`:
one point per distinct calendar date, in ascending date order, carrying the
mean sentiment of that date's rows. -/
def dailySentiment (sentiment_data : List SRow) : List (Nat × ℚ) :=
  let dates := sortAsc ((sentiment_data.map (fun r => dateKey r.date)).dedup)
  dates.map (fun k =>
    (k, mean ((sentiment_data.filter (fun r => dateKey r.date == k)).map
      SRow.sentiment)))

/-- The figure assembled by `create_visualization`: the candlestick trace
data of row 1 and, when present, the daily-sentiment scatter data of row 2. -/
structure Figure where
  candlestick : List PriceBar
  dailySentimentTrace : Option (List (Nat × ℚ))
deriving DecidableEq, Repr

/-- `create_visualization`: `None` on empty stock data; otherwise a figure
whose candlestick trace holds the stock bars and whose sentiment trace is
added only when `sentiment_data` is non-empty. -/
def create_visualization (stock_data : List PriceBar)
    (sentiment_data : List SRow) (company_name : String) : Option Figure :=
  if stock_data.isEmpty then none
  else some
    { candlestick := stock_data
      dailySentimentTrace :=
        if sentiment_data.isEmpty then none
        else some (dailySentiment sentiment_data) }

/-- The stock-performance metric of `main`: displayed only when the stock
DataFrame is non-empty with more than one row, as
`(Close.iloc[-1] / Close.iloc[0] - 1) * 100`; `none` models the metric being
omitted from the display. -/
def stockPerformance (stock_df : List PriceBar) : Option ℚ :=
  if !stock_df.isEmpty && stock_df.length > 1 then
    some ((lastClose stock_df / firstClose stock_df - 1) * 100)
  else none

/-- Once the empty/length guard passes, `get_trading_advice` reduces to the
threshold comparison on the mean sentiment alone. -/
theorem get_trading_advice_of_guard (sentiment_df : List SRow)
    (stock_df : List PriceBar) (h1 : sentiment_df.isEmpty = false)
    (h2 : stock_df.isEmpty = false) (h3 : ¬ stock_df.length < 2) :
    get_trading_advice sentiment_df stock_df =
      (if mean (sentiment_df.map SRow.sentiment) > 5/100 then
        ("BUYING ADVISED", "green")
      else if mean (sentiment_df.map SRow.sentiment) < 4/100 then
        ("SELLING ADVISED", "red")
      else ("HOLD POSITION", "orange")) := by
  have hguard :
      ¬((sentiment_df.isEmpty || stock_df.isEmpty ||
          decide (stock_df.length < 2)) = true) := by
    simp [h1, h2, h3]
  unfold get_trading_advice
  rw [if_neg hguard]

/-- C1: with non-empty sentiment records and at least 2 price bars, the
advisory is "BUYING ADVISED"/green iff the mean sentiment exceeds 0.05,
"SELLING ADVISED"/red iff it is below 0.04, and "HOLD POSITION"/orange
exactly on the band 0.04 ≤ s ≤ 0.05. -/
theorem get_trading_advice_thresholds (sentiment_df : List SRow)
    (stock_df : List PriceBar) (hs : sentiment_df ≠ [])
    (hp : 2 ≤ stock_df.length) :
    (get_trading_advice sentiment_df stock_df = ("BUYING ADVISED", "green") ↔
      5/100 < mean (sentiment_df.map SRow.sentiment)) ∧
    (get_trading_advice sentiment_df stock_df = ("SELLING ADVISED", "red") ↔
      mean (sentiment_df.map SRow.sentiment) < 4/100) ∧
    (get_trading_advice sentiment_df stock_df = ("HOLD POSITION", "orange") ↔
      (4/100 ≤ mean (sentiment_df.map SRow.sentiment) ∧
        mean (sentiment_df.map SRow.sentiment) ≤ 5/100)) := by
  have h1 : sentiment_df.isEmpty = false := by
    cases sentiment_df with
    | nil => exact absurd rfl hs
    | cons a l => rfl
  have h2 : stock_df.isEmpty = false := by
    cases stock_df with
    | nil => simp at hp
    | cons a l => rfl
  have h3 : ¬ stock_df.length < 2 := Nat.not_lt.mpr hp
  rw [get_trading_advice_of_guard sentiment_df stock_df h1 h2 h3]
  split_ifs with hgt hlt
  · refine ⟨⟨fun _ => hgt, fun _ => rfl⟩, ?_, ?_⟩
    · exact iff_of_false (by decide) (fun h => by linarith)
    · exact iff_of_false (by decide) (fun h => by linarith [h.2])
  · refine ⟨?_, ⟨fun _ => hlt, fun _ => rfl⟩, ?_⟩
    · exact iff_of_false (by decide) hgt
    · exact iff_of_false (by decide) (fun h => by linarith [h.1])
  · refine ⟨?_, ?_, iff_of_true rfl ⟨not_lt.1 hlt, not_lt.1 hgt⟩⟩
    · exact iff_of_false (by decide) hgt
    · exact iff_of_false (by decide) hlt

/-- Witness for C1: one record of sentiment 0.2, two bars; the mean exceeds
0.05 and the buy equivalence holds there. -/
theorem get_trading_advice_thresholds_witness :
    (([⟨⟨2024, 1, 2, 3, 4, 5⟩, "x", 2/10⟩] : List SRow) ≠ [] ∧
      2 ≤ ([⟨1, 1, 1, 1, 100⟩, ⟨2, 1, 1, 1, 110⟩] : List PriceBar).length) ∧
    (get_trading_advice [⟨⟨2024, 1, 2, 3, 4, 5⟩, "x", 2/10⟩]
        [⟨1, 1, 1, 1, 100⟩, ⟨2, 1, 1, 1, 110⟩] = ("BUYING ADVISED", "green") ↔
      5/100 < mean (([⟨⟨2024, 1, 2, 3, 4, 5⟩, "x", 2/10⟩] : List SRow).map
        SRow.sentiment)) :=
  ⟨⟨by simp, by simp⟩,
    (get_trading_advice_thresholds _ _ (by simp) (by simp)).1⟩

/-- C2: with empty sentiment records, or empty price bars, or fewer than 2
price bars, the advisory is always exactly ("NO ADVICE", gray). -/
theorem get_trading_advice_no_advice (sentiment_df : List SRow)
    (stock_df : List PriceBar)
    (h : sentiment_df = [] ∨ stock_df = [] ∨ stock_df.length < 2) :
    get_trading_advice sentiment_df stock_df = ("NO ADVICE", "gray") := by
  rcases h with h | h | h
  · simp [get_trading_advice, h]
  · simp [get_trading_advice, h]
  · simp [get_trading_advice, h]

/-- Witness for C2: a single price bar (fewer than 2) forces NO ADVICE even
with a strongly positive sentiment record present. -/
theorem get_trading_advice_no_advice_witness :
    (([⟨⟨2024, 1, 2, 3, 4, 5⟩, "x", 9/10⟩] : List SRow) = [] ∨
      ([⟨1, 1, 1, 1, 100⟩] : List PriceBar) = [] ∨
      ([⟨1, 1, 1, 1, 100⟩] : List PriceBar).length < 2) ∧
    get_trading_advice [⟨⟨2024, 1, 2, 3, 4, 5⟩, "x", 9/10⟩]
      [⟨1, 1, 1, 1, 100⟩] = ("NO ADVICE", "gray") :=
  ⟨Or.inr (Or.inr (by simp)),
    get_trading_advice_no_advice _ _ (Or.inr (Or.inr (by simp)))⟩

/-- C3: once the guard passes (non-empty sentiment, at least 2 bars), the
advisory does not depend on the price bars at all: any two qualifying price
series give the same (label, color) pair. -/
theorem get_trading_advice_ignores_prices (sentiment_df : List SRow)
    (p1 p2 : List PriceBar) (hs : sentiment_df ≠ [])
    (h1 : 2 ≤ p1.length) (h2 : 2 ≤ p2.length) :
    get_trading_advice sentiment_df p1 = get_trading_advice sentiment_df p2 := by
  have hse : sentiment_df.isEmpty = false := by
    cases sentiment_df with
    | nil => exact absurd rfl hs
    | cons a l => rfl
  have he1 : p1.isEmpty = false := by
    cases p1 with
    | nil => simp at h1
    | cons a l => rfl
  have he2 : p2.isEmpty = false := by
    cases p2 with
    | nil => simp at h2
    | cons a l => rfl
  have hl1 : ¬ p1.length < 2 := Nat.not_lt.mpr h1
  have hl2 : ¬ p2.length < 2 := Nat.not_lt.mpr h2
  rw [get_trading_advice_of_guard sentiment_df p1 hse he1 hl1,
    get_trading_advice_of_guard sentiment_df p2 hse he2 hl2]

/-- Witness for C3: rising prices [100, 110] and falling prices [110, 90]
yield the same advisory for the same sentiment records. -/
theorem get_trading_advice_ignores_prices_witness :
    (([⟨⟨2024, 1, 2, 3, 4, 5⟩, "x", 2/10⟩] : List SRow) ≠ [] ∧
      2 ≤ ([⟨1, 1, 1, 1, 100⟩, ⟨2, 1, 1, 1, 110⟩] : List PriceBar).length ∧
      2 ≤ ([⟨1, 1, 1, 1, 110⟩, ⟨2, 1, 1, 1, 90⟩] : List PriceBar).length) ∧
    get_trading_advice [⟨⟨2024, 1, 2, 3, 4, 5⟩, "x", 2/10⟩]
        [⟨1, 1, 1, 1, 100⟩, ⟨2, 1, 1, 1, 110⟩] =
      get_trading_advice [⟨⟨2024, 1, 2, 3, 4, 5⟩, "x", 2/10⟩]
        [⟨1, 1, 1, 1, 110⟩, ⟨2, 1, 1, 1, 90⟩] :=
  ⟨⟨by simp, by simp, by simp⟩,
    get_trading_advice_ignores_prices _ _ _ (by simp) (by simp) (by simp)⟩

/-- `filterMap` keeps every element on which the function succeeds. -/
theorem length_filterMap_of_isSome {α β : Type} (f : α → Option β)
    (l : List α) (h : ∀ a ∈ l, (f a).isSome = true) :
    (l.filterMap f).length = l.length := by
  induction l with
  | nil => rfl
  | cons a l ih =>
    rcases Option.isSome_iff_exists.1 (h a (List.mem_cons_self a l)) with ⟨b, hb⟩
    simp [List.filterMap_cons, hb,
      ih (fun x hx => h x (List.mem_cons_of_mem _ hx))]

/-- C4: with a usable key and an ok response, if exactly one article of the
batch has a publish timestamp that fails to parse while every other article
processes cleanly, `fetch_news_headlines` returns exactly N-1 headlines. -/
theorem fetch_news_skips_malformed (score : String → ℚ)
    (api_key : Option String) (hkey : (api_key.getD "").isEmpty = false)
    (pre post : List Article) (bad : Article) (ts : String)
    (hpre : ∀ a ∈ pre, (processArticle score a).isSome = true)
    (hpost : ∀ a ∈ post, (processArticle score a).isSome = true)
    (hts : bad.publishedAt = some ts) (hbad : parseTimestamp ts = none) :
    (fetch_news_headlines score api_key
        (NetOutcome.success ⟨"ok", pre ++ bad :: post⟩)).length =
      (pre ++ bad :: post).length - 1 := by
  have hbadP : processArticle score bad = none := by
    simp [processArticle, hts, hbad]
  simp [fetch_news_headlines, hkey, processArticles, List.filterMap_append,
    List.filterMap_cons, hbadP, length_filterMap_of_isSome _ _ hpre,
    length_filterMap_of_isSome _ _ hpost]

/-- Witness for C4: three articles, the middle one carrying the unparseable
timestamp "not-a-date"; two headlines survive. -/
theorem fetch_news_skips_malformed_witness :
    (((some "k" : Option String).getD "").isEmpty = false ∧
      (∀ a ∈ [Article.mk (some "2024-01-02T03:04:05Z") (some "good one")],
        (processArticle (fun _ => 0) a).isSome = true) ∧
      (∀ a ∈ [Article.mk (some "2024-01-03T10:00:00Z") (some "good two")],
        (processArticle (fun _ => 0) a).isSome = true) ∧
      (Article.mk (some "not-a-date") (some "bad")).publishedAt =
        some "not-a-date" ∧
      parseTimestamp "not-a-date" = none) ∧
    (fetch_news_headlines (fun _ => 0) (some "k")
        (NetOutcome.success ⟨"ok",
          [Article.mk (some "2024-01-02T03:04:05Z") (some "good one")] ++
            Article.mk (some "not-a-date") (some "bad") ::
              [Article.mk (some "2024-01-03T10:00:00Z") (some "good two")]⟩)).length =
      ([Article.mk (some "2024-01-02T03:04:05Z") (some "good one")] ++
          Article.mk (some "not-a-date") (some "bad") ::
            [Article.mk (some "2024-01-03T10:00:00Z") (some "good two")]).length - 1 :=
  ⟨⟨rfl, by decide, by decide, rfl, by decide⟩,
    fetch_news_skips_malformed (fun _ => 0) (some "k") rfl _ _ _ _
      (by decide) (by decide) rfl (by decide)⟩

/-- C5: a falsy API key (absent or empty) makes `fetch_news_headlines`
return the empty list whatever the network would have answered. -/
theorem fetch_news_missing_key (score : String → ℚ)
    (api_key : Option String) (net : NetOutcome)
    (h : (api_key.getD "").isEmpty = true) :
    fetch_news_headlines score api_key net = [] := by
  simp [fetch_news_headlines, h]

/-- Witness for C5: no key configured and a raising network still give []. -/
theorem fetch_news_missing_key_witness :
    ((none : Option String).getD "").isEmpty = true ∧
    fetch_news_headlines (fun _ => 0) none NetOutcome.raised = [] :=
  ⟨rfl, fetch_news_missing_key (fun _ => 0) none NetOutcome.raised rfl⟩

/-- C6: a raised request (network error or non-2xx) or a JSON body whose
status is not "ok" makes `fetch_news_headlines` return the empty list. -/
theorem fetch_news_upstream_failure (score : String → ℚ)
    (api_key : Option String) (net : NetOutcome)
    (h : net = NetOutcome.raised ∨
      ∃ resp, net = NetOutcome.success resp ∧ resp.status ≠ "ok") :
    fetch_news_headlines score api_key net = [] := by
  rcases h with rfl | ⟨resp, rfl, hst⟩
  · unfold fetch_news_headlines
    split
    · rfl
    · rfl
  · unfold fetch_news_headlines
    split
    · rfl
    · simp [hst]

/-- Witness for C6: a response with status "error" yields []. -/
theorem fetch_news_upstream_failure_witness :
    (NetOutcome.success ⟨"error", []⟩ = NetOutcome.raised ∨
      ∃ resp, NetOutcome.success ⟨"error", []⟩ = NetOutcome.success resp ∧
        resp.status ≠ "ok") ∧
    fetch_news_headlines (fun _ => 0) (some "k")
      (NetOutcome.success ⟨"error", []⟩) = [] :=
  ⟨Or.inr ⟨⟨"error", []⟩, rfl, by decide⟩,
    fetch_news_upstream_failure (fun _ => 0) (some "k") _
      (Or.inr ⟨⟨"error", []⟩, rfl, by decide⟩)⟩

/-- C7: the figure is absent iff the stock data is empty; with stock data
present but no sentiment rows, the candlestick trace carries the bars and no
sentiment trace is added. -/
theorem create_visualization_cases (stock_data : List PriceBar)
    (sentiment_data : List SRow) (company_name : String) :
    (create_visualization stock_data sentiment_data company_name = none ↔
      stock_data = []) ∧
    (stock_data ≠ [] → sentiment_data = [] →
      create_visualization stock_data sentiment_data company_name =
        some ⟨stock_data, none⟩) := by
  constructor
  · cases stock_data with
    | nil => simp [create_visualization]
    | cons a l => simp [create_visualization]
  · intro hs hsent
    subst hsent
    cases stock_data with
    | nil => exact absurd rfl hs
    | cons a l => simp [create_visualization]

/-- Witness for C7: one price bar and no sentiment rows give a figure with
the bar in the candlestick trace and no sentiment trace. -/
theorem create_visualization_cases_witness :
    (([⟨1, 1, 1, 1, 100⟩] : List PriceBar) ≠ [] ∧ ([] : List SRow) = []) ∧
    create_visualization [⟨1, 1, 1, 1, 100⟩] [] "Apple Inc" =
      some ⟨[⟨1, 1, 1, 1, 100⟩], none⟩ :=
  ⟨⟨by simp, rfl⟩,
    (create_visualization_cases [⟨1, 1, 1, 1, 100⟩] [] "Apple Inc").2
      (by simp) rfl⟩

/-- Inserting into an ascending chain keeps it ascending. -/
theorem insertAsc_chain (x : Nat) :
    ∀ l : List Nat, List.Chain' (· ≤ ·) l →
      List.Chain' (· ≤ ·) (insertAsc x l)
  | [], _ => by simp [insertAsc]
  | y :: ys, h => by
    rw [insertAsc]
    split
    · exact List.chain'_cons.2 ⟨by assumption, h⟩
    · have hyx : y ≤ x := by omega
      have htail := (List.chain'_cons'.1 h).2
      refine List.chain'_cons'.2 ⟨?_, insertAsc_chain x ys htail⟩
      intro z hz
      cases ys with
      | nil =>
        simp [insertAsc] at hz
        omega
      | cons w ws =>
        rw [insertAsc] at hz
        split at hz
        · simp at hz
          omega
        · simp at hz
          have hyw := (List.chain'_cons'.1 h).1 w rfl
          omega

/-- The ascending insertion sort produces an ascending chain. -/
theorem sortAsc_chain (l : List Nat) :
    List.Chain' (· ≤ ·) (sortAsc l) := by
  induction l with
  | nil => simp [sortAsc]
  | cons a l ih => exact insertAsc_chain a (sortAsc l) ih

/-- C8: the daily sentiment series is keyed by calendar date in ascending
order; on records {(day1 09:00, 0.2), (day1 15:00, -0.4), (day2, 0.6)} the
two points are (day1, -0.1) and (day2, 0.6), day1 first. -/
theorem dailySentiment_spec :
    (∀ rows : List SRow,
      List.Chain' (· ≤ ·) ((dailySentiment rows).map Prod.fst)) ∧
    dailySentiment
      [⟨⟨2024, 1, 1, 9, 0, 0⟩, "a", 2/10⟩, ⟨⟨2024, 1, 1, 15, 0, 0⟩, "b", -4/10⟩,
        ⟨⟨2024, 1, 2, 9, 0, 0⟩, "c", 6/10⟩] =
      [(dateKey ⟨2024, 1, 1, 9, 0, 0⟩, -1/10),
        (dateKey ⟨2024, 1, 2, 9, 0, 0⟩, 6/10)] ∧
    dateKey ⟨2024, 1, 1, 9, 0, 0⟩ < dateKey ⟨2024, 1, 2, 9, 0, 0⟩ := by
  refine ⟨?_, ?_, by norm_num [dateKey]⟩
  · intro rows
    have : ((dailySentiment rows).map Prod.fst) =
        sortAsc ((rows.map (fun r => dateKey r.date)).dedup) := by
      rw [dailySentiment, List.map_map]
      exact List.map_id _
    rw [this]
    exact sortAsc_chain _
  · norm_num [dailySentiment, dateKey, sortAsc, insertAsc, mean, List.dedup]

/-- C9: the performance metric is omitted exactly when fewer than 2 bars are
present; for closes [100, 110] it equals 10 percent. -/
theorem stockPerformance_spec :
    (∀ bars : List PriceBar, stockPerformance bars = none ↔ bars.length < 2) ∧
    stockPerformance [⟨1, 1, 1, 1, 100⟩, ⟨2, 1, 1, 1, 110⟩] = some 10 ∧
    stockPerformance [⟨1, 1, 1, 1, 100⟩] = none := by
  refine ⟨?_, by norm_num [stockPerformance, firstClose, lastClose],
    by norm_num [stockPerformance]⟩
  intro bars
  cases bars with
  | nil => simp [stockPerformance]
  | cons a l =>
    by_cases h : l.length + 1 > 1
    · simp only [stockPerformance, List.isEmpty_cons, Bool.not_false,
        List.length_cons, h, decide_True, Bool.and_self]
      constructor
      · intro hc
        exact absurd hc (by simp)
      · intro hc
        omega
    · simp only [stockPerformance, List.isEmpty_cons, Bool.not_false,
        List.length_cons, h, decide_False, Bool.and_false]
      constructor
      · intro _
        omega
      · intro _
        rfl

/-- A fold appending one row per headline equals the accumulator followed by
the mapped rows. -/
theorem analyze_sentiment_foldl (headlines : List (DateTime × String × ℚ))
    (acc : List SRow) :
    headlines.foldl (fun results h => results ++ [⟨h.1, h.2.1, h.2.2⟩]) acc =
      acc ++ headlines.map (fun h => ⟨h.1, h.2.1, h.2.2⟩) := by
  induction headlines generalizing acc with
  | nil => simp
  | cons a l ih => simp [List.foldl_cons, ih]

/-- C10: `analyze_sentiment` yields exactly one row per headline tuple, in
input order, copying the (date, headline, sentiment) values unchanged, and
the empty row set on the empty list. -/
theorem analyze_sentiment_spec (headlines : List (DateTime × String × ℚ)) :
    analyze_sentiment headlines =
      headlines.map (fun h => ⟨h.1, h.2.1, h.2.2⟩) ∧
    (analyze_sentiment headlines).length = headlines.length := by
  have hmap : analyze_sentiment headlines =
      headlines.map (fun h => ⟨h.1, h.2.1, h.2.2⟩) := by
    cases headlines with
    | nil => rfl
    | cons a l =>
      have := analyze_sentiment_foldl (a :: l) []
      simpa [analyze_sentiment] using this
  exact ⟨hmap, by rw [hmap, List.length_map]⟩

end StockSentiment
